import Mathlib

/-!
Verification of the allocation subsystem of `src/gnu/gnulib_stubs.c` and
`src/gnu/gnulib_compat.h`: the fail-fast allocation guards (`xmalloc`,
`xcalloc`, `xrealloc`, `xnmalloc`, `xreallocarray`), the overflow-checked
multiply realized in `reallocarray` / `xreallocarray`, the growth primitive
`xpalloc` with its doubling entry points `x2realloc` / `x2nrealloc`, and the
`gl_dynarray_resize` stub.

Machine model: `size_t` is a 64-bit unsigned integer, embedded as `Nat` with
all arithmetic reduced modulo `2 ^ 64`; `ptrdiff_t` is embedded as `Int`
(a caller-supplied value lies in `[-2 ^ 63, 2 ^ 63)`).  The underlying
allocator (`malloc` / `calloc` / `realloc`) is an oracle: the block it
returns for the one request a guard makes is passed in as an
`Option Nat` argument (`none` models a NULL return).  `xalloc_die` prints a
fixed diagnostic on stderr and aborts; it is modelled as a terminal `fatal`
outcome carrying that diagnostic string.
-/

namespace GnulibStubs

/-- Number of values of the 64-bit `size_t` type: `2 ^ 64`. -/
def SIZE : Nat := 2 ^ 64

/-- `SIZE_MAX`, the largest `size_t` value. -/
def SIZE_MAX : Nat := SIZE - 1

/-- Wrapping `size_t` addition. -/
def wrapAdd (a b : Nat) : Nat := (a + b) % SIZE

/-- Wrapping `size_t` multiplication. -/
def wrapMul (a b : Nat) : Nat := (a * b) % SIZE

/-- Wrapping `size_t` subtraction `a - b`. -/
def wrapSub (a b : Nat) : Nat := (a % SIZE + (SIZE - b % SIZE)) % SIZE

/-- The diagnostic `xalloc_die` writes to stderr before `abort()`:
`fprintf(stderr, "grep: memory exhausted\n"); abort();`. -/
def xalloc_die_msg : String := "grep: memory exhausted"

/-- Outcome of one call to an allocation guard: either it returns a block
pointer to its caller (`ret none` models returning NULL), or it dies via
`xalloc_die`, printing `msg` on stderr and aborting the process. -/
inductive GuardResult where
  | ret (block : Option Nat)
  | fatal (msg : String)
deriving DecidableEq

/-- `xmalloc(n)`: `p = malloc(n); if (!p && n != 0) xalloc_die(); return p;`.
`m` is the oracle result of `malloc(n)`. -/
def xmalloc (n : Nat) (m : Option Nat) : GuardResult :=
  if m = none ∧ n ≠ 0 then .fatal xalloc_die_msg else .ret m

/-- `xcalloc(n, s)`: `p = calloc(n, s); if (!p && n != 0 && s != 0)
xalloc_die(); return p;`.  `m` is the oracle result of `calloc(n, s)`. -/
def xcalloc (n s : Nat) (m : Option Nat) : GuardResult :=
  if m = none ∧ n ≠ 0 ∧ s ≠ 0 then .fatal xalloc_die_msg else .ret m

/-- `xrealloc(p, n)`: `r = realloc(p, n); if (!r && n != 0) xalloc_die();
return r;`.  `m` is the oracle result of `realloc(p, n)`. -/
def xrealloc (n : Nat) (m : Option Nat) : GuardResult :=
  if m = none ∧ n ≠ 0 then .fatal xalloc_die_msg else .ret m

/-- What a guard does before the underlying allocator answers: either it
passes a byte count down to the allocator, or it dies first via
`xalloc_die` without any allocation. -/
inductive GuardStep where
  | request (bytes : Nat)
  | fatal (msg : String)
deriving DecidableEq

/-- The sizing step of `xnmalloc(n, s)`: `return xmalloc(n * s);` — the
product is formed with wrapping `size_t` arithmetic, with no overflow
check, and handed to `xmalloc`. -/
def xnmallocStep (n s : Nat) : GuardStep :=
  .request (wrapMul n s)

/-- The sizing step of `xreallocarray(p, n, s)`:
`if (s != 0 && n > (size_t)-1 / s) xalloc_die(); return xrealloc(p, n * s);`.
`(size_t)-1` is `SIZE_MAX`. -/
def xreallocarrayStep (n s : Nat) : GuardStep :=
  if s ≠ 0 ∧ SIZE_MAX / s < n then .fatal xalloc_die_msg
  else .request (wrapMul n s)

/-- What `reallocarray` (gnulib_compat.h) does before the allocator answers:
either it returns NULL itself with `errno = ENOMEM` and no allocator call,
or it passes a byte count to `realloc`. -/
inductive SoftStep where
  | noAlloc
  | request (bytes : Nat)
deriving DecidableEq

/-- The sizing step of `reallocarray(ptr, nmemb, size)`:
`if (nmemb && size > SIZE_MAX / nmemb) { errno = ENOMEM; return NULL; }
return realloc(ptr, nmemb * size);`. -/
def reallocarrayStep (nmemb size : Nat) : SoftStep :=
  if nmemb ≠ 0 ∧ SIZE_MAX / nmemb < size then .noAlloc
  else .request (wrapMul nmemb size)

/-- The spec's `checked_multiply(count, element_size) -> (value, overflowed)`
as realized by the overflow test of `xreallocarray`
(`s != 0 && n > (size_t)-1 / s`): the flag is the test's verdict, the value
is the wrapped `size_t` product the code would go on to use. -/
def checked_multiply (count element_size : Nat) : Nat × Bool :=
  if element_size ≠ 0 ∧ SIZE_MAX / element_size < count then
    (wrapMul count element_size, true)
  else
    (wrapMul count element_size, false)

/-- The four arguments of `gl_dynarray_resize(list, size, scratch, element)`,
pointers rendered as plain numbers since the stub never dereferences them. -/
structure DynarrayArgs where
  list : Nat
  size : Nat
  scratch : Nat
  element : Nat
deriving DecidableEq

/-- `gl_dynarray_resize`: casts each argument to void and returns `false`.
Modelled as returning the flag together with the (unchanged) arguments. -/
def gl_dynarray_resize (a : DynarrayArgs) : Bool × DynarrayArgs :=
  (false, a)

/-- Outcome of `xpalloc` as visible to the caller and the allocator: the
source always stores a new element count through `*pn` and always invokes
`xrealloc` with a byte count (`realloc new_n bytes`).  The `boundReached`
constructor is the spec's BoundReached signal, present so that spec-level
claims about it can be stated; the source never produces it. -/
inductive GrowOutcome where
  | boundReached
  | realloc (new_n bytes : Nat)
deriving DecidableEq

/-- The element count stored through `*pn`, if the call returns one. -/
def GrowOutcome.count : GrowOutcome → Option Nat
  | .boundReached => none
  | .realloc n _ => some n

/-- `xpalloc` local `n_incr` after `n_incr = n; if (n_incr < n_incr_min)
n_incr = n_incr_min;`. -/
def xpalloc_incr1 (n n_incr_min : Nat) : Nat :=
  if n < n_incr_min then n_incr_min else n

/-- `xpalloc` local `n_incr` after the bound clamp
`if (n_max >= 0 && n + n_incr > (size_t)n_max) n_incr = (size_t)n_max - n;`
(all `size_t` operations wrap). -/
def xpalloc_incr2 (n n_incr_min : Nat) (n_max : Int) : Nat :=
  if 0 ≤ n_max ∧ n_max.toNat < wrapAdd n (xpalloc_incr1 n n_incr_min) then
    wrapSub n_max.toNat n
  else
    xpalloc_incr1 n n_incr_min

/-- `xpalloc(pa, pn, n_incr_min, n_max, s)` with `n = *pn`: computes
`new_n = n + n_incr`, stores it through `*pn`, and returns
`xrealloc(pa, new_n * s)` — both the sum and the product wrap. -/
def xpalloc (n n_incr_min : Nat) (n_max : Int) (s : Nat) : GrowOutcome :=
  GrowOutcome.realloc
    (wrapAdd n (xpalloc_incr2 n n_incr_min n_max))
    (wrapMul (wrapAdd n (xpalloc_incr2 n n_incr_min n_max)) s)

/-- `x2realloc(p, pn)`: `return xpalloc(p, pn, 1, -1, 1);`. -/
def x2realloc (n : Nat) : GrowOutcome := xpalloc n 1 (-1) 1

/-- `x2nrealloc(p, pn, s)`: `return xpalloc(p, pn, 1, -1, s);`. -/
def x2nrealloc (n s : Nat) : GrowOutcome := xpalloc n 1 (-1) s

/-! Helper lemmas shared by the claim theorems. -/

/-- The min-clamped increment of `xpalloc` is the maximum of the current
count and the requested minimum increment. -/
theorem xpalloc_incr1_eq (n m : Nat) : xpalloc_incr1 n m = max n m := by
  unfold xpalloc_incr1
  rcases Nat.lt_or_ge n m with h | h
  · rw [if_pos h, Nat.max_eq_right (Nat.le_of_lt h)]
  · rw [if_neg (Nat.not_lt.mpr h), Nat.max_eq_left h]

/-- Closed form of `xpalloc` when the unclamped sum does not overflow and,
for a bounded `n_max`, the current count does not exceed the bound: the
stored count is `min (n + max n m) n_max` (or `n + max n m` when
unbounded), and a reallocation of that many `s`-byte elements is issued. -/
theorem xpalloc_eq (n m : Nat) (nm : Int) (s : Nat)
    (hsum : n + max n m ≤ SIZE_MAX)
    (hb : 0 ≤ nm → n ≤ nm.toNat) :
    xpalloc n m nm s =
      GrowOutcome.realloc
        (if 0 ≤ nm then min (n + max n m) nm.toNat else n + max n m)
        (wrapMul (if 0 ≤ nm then min (n + max n m) nm.toNat else n + max n m) s) := by
  have hS : SIZE = 18446744073709551616 := by norm_num [SIZE]
  have hSM : SIZE_MAX = 18446744073709551615 := by norm_num [SIZE_MAX, SIZE]
  have hnew : wrapAdd n (xpalloc_incr2 n m nm) =
      if 0 ≤ nm then min (n + max n m) nm.toNat else n + max n m := by
    rw [xpalloc_incr2, xpalloc_incr1_eq]
    by_cases h0 : 0 ≤ nm
    · have hbn := hb h0
      by_cases hc : nm.toNat < wrapAdd n (max n m)
      · rw [if_pos ⟨h0, hc⟩, if_pos h0]
        unfold wrapAdd wrapSub at *
        rw [hS] at *
        rw [hSM] at hsum
        omega
      · rw [if_neg (fun hcon => hc hcon.2), if_pos h0]
        unfold wrapAdd at *
        rw [hS] at *
        rw [hSM] at hsum
        omega
    · rw [if_neg (fun hcon => h0 hcon.1), if_neg h0]
      unfold wrapAdd
      rw [hS]
      rw [hSM] at hsum
      omega
  rw [xpalloc, hnew]

/-- The division-based overflow test used by `xreallocarray` is exactly
product overflow: `s != 0 && n > SIZE_MAX / s` holds iff `n * s` exceeds
`SIZE_MAX`. -/
theorem size_overflow_test (n s : Nat) :
    (s ≠ 0 ∧ SIZE_MAX / s < n) ↔ SIZE_MAX < n * s := by
  constructor
  · rintro ⟨hs, hlt⟩
    exact (Nat.div_lt_iff_lt_mul (Nat.pos_of_ne_zero hs)).mp hlt
  · intro h
    have hs : s ≠ 0 := by
      rintro rfl
      simp at h
    exact ⟨hs, (Nat.div_lt_iff_lt_mul (Nat.pos_of_ne_zero hs)).mpr h⟩

/-! Claim theorems. -/

/-- C1 (counterexample): with the current count equal to the bound
(`grow(current=4, minimum_increment=1, maximum=4)`), `xpalloc` does not
signal BoundReached: it stores count 4 and issues a reallocation of
4 bytes, so an allocation is performed. -/
theorem xpalloc_at_bound_cex :
    xpalloc 4 1 4 1 = GrowOutcome.realloc 4 4 ∧
    xpalloc 4 1 4 1 ≠ GrowOutcome.boundReached := by
  decide

/-- C1 (amended): when `n_max` is bounded, the current count equals the
bound, and the unclamped sum does not wrap, `xpalloc` clamps the increment
to 0 and leaves the stored count unchanged, but still performs a
reallocation of `n * s` (wrapped) bytes; no BoundReached signal exists. -/
theorem xpalloc_at_bound (n m : Nat) (nm : Int) (s : Nat)
    (hsum : n + max n m ≤ SIZE_MAX)
    (h0 : 0 ≤ nm) (hbe : nm.toNat = n) :
    xpalloc n m nm s = GrowOutcome.realloc n (wrapMul n s) := by
  have h := xpalloc_eq n m nm s hsum (fun _ => by omega)
  rw [h, if_pos h0, hbe]
  have hmin : min (n + max n m) n = n := by omega
  rw [hmin]

/-- C1 (witness): the spec's scenario 3, `grow(current=10,
minimum_increment=1, maximum=10)`: the count stays 10 and a 10-byte
reallocation is issued. -/
theorem xpalloc_at_bound_witness :
    xpalloc 10 1 10 1 = GrowOutcome.realloc 10 10 := by
  have h := xpalloc_at_bound 10 1 10 1 (by decide) (by decide) (by decide)
  rw [h]
  decide

/-- C2 (counterexample): `grow(current=2^63, minimum_increment=1,
maximum=unbounded, element_size=1)`: the new count `2^63 + 2^63` wraps
silently to 0 and a 0-byte reallocation is issued; nothing is treated as
fatal even though the count shrank from `2^63` to 0. -/
theorem xpalloc_overflow_wraps_cex :
    xpalloc (2 ^ 63) 1 (-1) 1 = GrowOutcome.realloc 0 0 ∧ (0 : Nat) < 2 ^ 63 := by
  decide

/-- C2 (amended): `xpalloc` performs no overflow check: when `n_max` is
unbounded and the sum `n + max n m` overflows `size_t`, the sum wraps
modulo `2 ^ 64`, the wrapped (strictly smaller) value is stored, and a
reallocation with the wrapped values is issued instead of any fatal
signal. -/
theorem xpalloc_overflow_wraps (n m : Nat) (nm : Int) (s : Nat)
    (hnm : nm < 0) (hov : SIZE ≤ n + max n m) :
    xpalloc n m nm s =
      GrowOutcome.realloc ((n + max n m) % SIZE)
        (wrapMul ((n + max n m) % SIZE) s) ∧
    (n + max n m) % SIZE < n + max n m := by
  have hns : ¬(0 ≤ nm ∧ nm.toNat < wrapAdd n (xpalloc_incr1 n m)) :=
    fun hcon => (not_le.mpr hnm) hcon.1
  constructor
  · rw [xpalloc, xpalloc_incr2, if_neg hns, xpalloc_incr1_eq, wrapAdd]
  · have hpos : 0 < SIZE := by norm_num [SIZE]
    have hlt : (n + max n m) % SIZE < SIZE := Nat.mod_lt _ hpos
    omega

/-- C2 (witness): at `n = 2^63`, minimum increment 1, unbounded, element
size 1, the amended theorem applies and yields the wrapped outcome. -/
theorem xpalloc_overflow_wraps_witness :
    xpalloc (2 ^ 63) 1 (-1) 1 =
      GrowOutcome.realloc ((2 ^ 63 + max (2 ^ 63) 1) % SIZE)
        (wrapMul ((2 ^ 63 + max (2 ^ 63) 1) % SIZE) 1) ∧
    (2 ^ 63 + max (2 ^ 63) 1) % SIZE < 2 ^ 63 + max (2 ^ 63) 1 := by
  exact xpalloc_overflow_wraps (2 ^ 63) 1 (-1) 1 (by decide) (by decide)

/-- C3 (counterexample): `xnmalloc(2^32, 2^32)` performs no overflow
check: the product `2^64` exceeds `SIZE_MAX`, yet the wrapped byte count 0
is passed to the underlying allocator rather than being treated as fatal. -/
theorem guard_sizing_cex :
    xnmallocStep (2 ^ 32) (2 ^ 32) = GuardStep.request 0 ∧
    SIZE_MAX < 2 ^ 32 * 2 ^ 32 := by
  decide

/-- C3 (amended): of the multiplying guard entry points, `xreallocarray`
computes the byte size with an overflow check and treats overflow as
fatal, but `xnmalloc` performs no check and passes the product wrapped
modulo `2 ^ 64` — strictly smaller than the true product on overflow — to
the allocator. -/
theorem guard_sizing (n s : Nat) :
    (n * s ≤ SIZE_MAX →
        xreallocarrayStep n s = GuardStep.request (n * s) ∧
        xnmallocStep n s = GuardStep.request (n * s)) ∧
    (SIZE_MAX < n * s →
        xreallocarrayStep n s = GuardStep.fatal xalloc_die_msg ∧
        xnmallocStep n s = GuardStep.request (n * s % SIZE) ∧
        n * s % SIZE < n * s) := by
  have key := size_overflow_test n s
  have hS : SIZE = SIZE_MAX + 1 := by norm_num [SIZE, SIZE_MAX]
  constructor
  · intro hle
    have hns : ¬(s ≠ 0 ∧ SIZE_MAX / s < n) :=
      fun hcon => absurd (key.mp hcon) (Nat.not_lt.mpr hle)
    have hmod : n * s % SIZE = n * s := Nat.mod_eq_of_lt (by omega)
    constructor
    · rw [xreallocarrayStep, if_neg hns, wrapMul, hmod]
    · rw [xnmallocStep, wrapMul, hmod]
  · intro hlt
    have hcon := key.mpr hlt
    refine ⟨?_, ?_, ?_⟩
    · rw [xreallocarrayStep, if_pos hcon]
    · rw [xnmallocStep, wrapMul]
    · have hpos : 0 < SIZE := by omega
      have hm : n * s % SIZE < SIZE := Nat.mod_lt _ hpos
      omega

/-- C3 (witness): `xreallocarray` at a fitting product requests the exact
byte count; at `2^32 * 2^32` it dies with the memory-exhausted diagnostic. -/
theorem guard_sizing_witness :
    xreallocarrayStep 3 5 = GuardStep.request (3 * 5) ∧
    xreallocarrayStep (2 ^ 32) (2 ^ 32) = GuardStep.fatal xalloc_die_msg := by
  exact ⟨((guard_sizing 3 5).1 (by decide)).1,
    ((guard_sizing (2 ^ 32) (2 ^ 32)).2 (by decide)).1⟩

/-- C4: when the request stays within a bounded maximum (or has no
maximum) and the unclamped sum does not overflow, the stored count is
`min (current + max current minimum_increment) maximum` (just the sum when
unbounded). -/
theorem xpalloc_count_min (n m : Nat) (nm : Int) (s : Nat)
    (hsum : n + max n m ≤ SIZE_MAX)
    (hb : 0 ≤ nm → n ≤ nm.toNat) :
    (xpalloc n m nm s).count =
      some (if 0 ≤ nm then min (n + max n m) nm.toNat else n + max n m) := by
  rw [xpalloc_eq n m nm s hsum hb]
  rfl

/-- C4 (witness): the spec's scenarios 1 and 2:
`grow(current=4, minimum_increment=1, maximum=unbounded)` yields count 8,
and `grow(current=8, minimum_increment=1, maximum=10)` yields count 10. -/
theorem xpalloc_count_min_witness :
    (xpalloc 4 1 (-1) 1).count = some 8 ∧ (xpalloc 8 1 10 1).count = some 10 := by
  constructor
  · have h := xpalloc_count_min 4 1 (-1) 1 (by decide) (by decide)
    rw [h]
    decide
  · have h := xpalloc_count_min 8 1 10 1 (by decide) (by decide)
    rw [h]
    decide

/-- C5 (counterexample): `grow(current=5, minimum_increment=1, maximum=3)`
stores count 3, strictly below the previous count 5 — the returned
element count is not `≥` the previous one. -/
theorem xpalloc_monotone_cex :
    (xpalloc 5 1 3 1).count = some 3 ∧ 3 < 5 := by
  decide

/-- C5 (amended): when the current count does not exceed a bounded
maximum and the unclamped sum does not overflow, the stored count is `≥`
the previous count, and `≤ n_max` whenever `n_max` is bounded. -/
theorem xpalloc_monotone (n m : Nat) (nm : Int) (s : Nat)
    (hsum : n + max n m ≤ SIZE_MAX)
    (hb : 0 ≤ nm → n ≤ nm.toNat) :
    ∃ c, (xpalloc n m nm s).count = some c ∧ n ≤ c ∧
      (0 ≤ nm → c ≤ nm.toNat) := by
  refine ⟨if 0 ≤ nm then min (n + max n m) nm.toNat else n + max n m, ?_, ?_, ?_⟩
  · rw [xpalloc_eq n m nm s hsum hb]
    rfl
  · by_cases h0 : 0 ≤ nm
    · rw [if_pos h0]
      have := hb h0
      omega
    · rw [if_neg h0]
      omega
  · intro h0
    rw [if_pos h0]
    omega

/-- C5 (witness): at `grow(current=4, minimum_increment=1, maximum=10)`
the amended monotonicity applies: there is a stored count `≥ 4` and
`≤ 10`. -/
theorem xpalloc_monotone_witness :
    ∃ c, (xpalloc 4 1 10 1).count = some c ∧ 4 ≤ c ∧
      (0 ≤ (10 : Int) → c ≤ (10 : Int).toNat) :=
  xpalloc_monotone 4 1 10 1 (by decide) (by decide)

/-- C6: the overflow-checked multiply: whenever `count * element_size`
fits `size_t`, it returns the exact product with `overflowed = false`;
whenever the product exceeds `SIZE_MAX` it reports `overflowed = true`,
`reallocarray` returns NULL without calling the allocator, and
`xreallocarray` dies before any allocation. -/
theorem checked_multiply_correct (c e : Nat) :
    (c * e ≤ SIZE_MAX → checked_multiply c e = (c * e, false)) ∧
    (SIZE_MAX < c * e →
        (checked_multiply c e).2 = true ∧
        reallocarrayStep c e = SoftStep.noAlloc ∧
        xreallocarrayStep c e = GuardStep.fatal xalloc_die_msg) := by
  have hS : SIZE = SIZE_MAX + 1 := by norm_num [SIZE, SIZE_MAX]
  constructor
  · intro hle
    have hns : ¬(e ≠ 0 ∧ SIZE_MAX / e < c) :=
      fun hcon => absurd ((size_overflow_test c e).mp hcon) (Nat.not_lt.mpr hle)
    have hmod : c * e % SIZE = c * e := Nat.mod_eq_of_lt (by omega)
    rw [checked_multiply, if_neg hns, wrapMul, hmod]
  · intro hlt
    have hcon := (size_overflow_test c e).mpr hlt
    have hcon2 : c ≠ 0 ∧ SIZE_MAX / c < e :=
      (size_overflow_test e c).mpr (by rw [Nat.mul_comm]; exact hlt)
    refine ⟨?_, ?_, ?_⟩
    · rw [checked_multiply, if_pos hcon]
    · rw [reallocarrayStep, if_pos hcon2]
    · rw [xreallocarrayStep, if_pos hcon]

/-- C6 (witness): `checked_multiply 3 5` yields the exact product without
overflow; `checked_multiply SIZE_MAX 2` (the spec's scenario 4) reports
overflow and `reallocarray` makes no allocator call. -/
theorem checked_multiply_correct_witness :
    checked_multiply 3 5 = (3 * 5, false) ∧
    (checked_multiply SIZE_MAX 2).2 = true ∧
    reallocarrayStep SIZE_MAX 2 = SoftStep.noAlloc := by
  refine ⟨(checked_multiply_correct 3 5).1 (by decide), ?_, ?_⟩
  · exact ((checked_multiply_correct SIZE_MAX 2).2 (by decide)).1
  · exact ((checked_multiply_correct SIZE_MAX 2).2 (by decide)).2.1

/-- C7: for every non-zero-sized request whose underlying allocator
returns no block, `xmalloc`, `xrealloc` and `xcalloc` die with the
memory-exhausted diagnostic on stderr; and whenever they do return to the
caller, the returned block is never NULL. -/
theorem xalloc_guard_fatal (n : Nat) (h : n ≠ 0) :
    xmalloc n none = GuardResult.fatal xalloc_die_msg ∧
    xrealloc n none = GuardResult.fatal xalloc_die_msg ∧
    (∀ s : Nat, s ≠ 0 → xcalloc n s none = GuardResult.fatal xalloc_die_msg) ∧
    (∀ m b : Option Nat, xmalloc n m = GuardResult.ret b → b ≠ none) ∧
    (∀ m b : Option Nat, xrealloc n m = GuardResult.ret b → b ≠ none) := by
  refine ⟨?_, ?_, ?_, ?_, ?_⟩
  · rw [xmalloc, if_pos ⟨rfl, h⟩]
  · rw [xrealloc, if_pos ⟨rfl, h⟩]
  · intro s hs
    rw [xcalloc, if_pos ⟨rfl, h, hs⟩]
  · intro m b hmb hbn
    subst hbn
    by_cases hm : m = none
    · rw [xmalloc, if_pos ⟨hm, h⟩] at hmb
      exact GuardResult.noConfusion hmb
    · rw [xmalloc, if_neg (fun hcon => hm hcon.1)] at hmb
      injection hmb with h2
      exact hm h2
  · intro m b hmb hbn
    subst hbn
    by_cases hm : m = none
    · rw [xrealloc, if_pos ⟨hm, h⟩] at hmb
      exact GuardResult.noConfusion hmb
    · rw [xrealloc, if_neg (fun hcon => hm hcon.1)] at hmb
      injection hmb with h2
      exact hm h2

/-- C7 (witness): `xmalloc 1` and `xcalloc 2 8` with a failing allocator
die with the diagnostic. -/
theorem xalloc_guard_fatal_witness :
    xmalloc 1 none = GuardResult.fatal xalloc_die_msg ∧
    xcalloc 2 8 none = GuardResult.fatal xalloc_die_msg :=
  ⟨(xalloc_guard_fatal 1 (by decide)).1,
    (xalloc_guard_fatal 2 (by decide)).2.2.1 8 (by decide)⟩

/-- C8: every zero-sized request (`n = 0` or `s = 0`) returns whatever the
underlying allocator produced — a valid block or NULL — and never dies;
the same holds for `xmalloc 0`. -/
theorem zero_sized_no_die (n s : Nat) (m : Option Nat) (h : n = 0 ∨ s = 0) :
    xcalloc n s m = GuardResult.ret m ∧ xmalloc 0 m = GuardResult.ret m := by
  constructor
  · rw [xcalloc, if_neg]
    rintro ⟨hm, hn, hs⟩
    rcases h with h | h
    · exact hn h
    · exact hs h
  · rw [xmalloc, if_neg]
    rintro ⟨hm, hn⟩
    exact hn rfl

/-- C8 (witness): the spec's scenario 5, `allocate(count=0,
element_size=8)` with the allocator returning no block: `xcalloc` returns
NULL to the caller and does not terminate. -/
theorem zero_sized_no_die_witness :
    xcalloc 0 8 none = GuardResult.ret none :=
  (zero_sized_no_die 0 8 none (Or.inl rfl)).1

/-- C9: `gl_dynarray_resize` returns `false` for every combination of its
arguments and leaves all of them unchanged. -/
theorem gl_dynarray_resize_always_false (a : DynarrayArgs) :
    gl_dynarray_resize a = (false, a) := rfl

/-- C10: `x2nrealloc(p, pn, s)` is exactly `xpalloc(p, pn, 1, -1, s)` and
`x2realloc(p, pn)` is exactly `xpalloc(p, pn, 1, -1, 1)`; in particular
growth from a stored count of 0 reaches 1 rather than stalling. -/
theorem doubling_refines_xpalloc (n s : Nat) :
    x2nrealloc n s = xpalloc n 1 (-1) s ∧
    x2realloc n = xpalloc n 1 (-1) 1 ∧
    (x2nrealloc 0 s).count = some 1 ∧
    (x2realloc 0).count = some 1 :=
  ⟨rfl, rfl, rfl, rfl⟩

end GnulibStubs
